import Mathlib

/-!
Shallow embedding of the resilient crawl pipeline of the anime-scrapper
repository: the fetch client (`src/scraper/mod.rs`), the freshness cache and
persistence operations (`src/db/repository.rs`), and the crawl orchestrator
and single-key cached-fetch path (`src/routes/mod.rs`).  Machine integers of
the source (u16 status codes, u64 delays, i32 counters, i64 milliseconds) are
modelled as `Nat`/`Int`; the values arising in the verified statements stay
far below any wrap-around boundary.  Stateful effects (HTTP transport,
database) are modelled as explicit oracles / state passing.
-/

/-! ## Fetch client (`src/scraper/mod.rs`) -/

instance {ε α : Type _} [DecidableEq ε] [DecidableEq α] : DecidableEq (Except ε α)
  | .ok a, .ok b =>
      if h : a = b then isTrue (by rw [h])
      else isFalse (by intro hc; cases hc; exact h rfl)
  | .ok _, .error _ => isFalse (by intro h; cases h)
  | .error _, .ok _ => isFalse (by intro h; cases h)
  | .error e, .error f =>
      if h : e = f then isTrue (by rw [h])
      else isFalse (by intro hc; cases hc; exact h rfl)

/-- `ScraperError` from `src/scraper/mod.rs` (lines 14-31): the four error
variants `NetworkError`, `HttpError`, `ResponseError`, `RateLimited`. -/
inductive ScraperError where
  | NetworkError (reason : String)
  | HttpError (code : Nat)
  | ResponseError (reason : String)
  | RateLimited
deriving DecidableEq, Repr

/-- `ScraperResult` from `src/scraper/mod.rs`: html body plus HTTP status. -/
structure ScraperResult where
  html : String
  status : Nat
deriving DecidableEq, Repr

/-- What the HTTP transport layer gives one `do_fetch` call: either the send
failed (with the reqwest classification bits `is_timeout`/`is_connect` and a
message), or a response arrived with a status code and a body-read result
(`response.text()` can itself fail). -/
inductive TransportEvent where
  | failure (is_timeout : Bool) (is_connect : Bool) (msg : String)
  | response (status : Nat) (body_read : Except String String)
deriving DecidableEq, Repr

/-- `Scraper::do_fetch` (`src/scraper/mod.rs` lines 210-268) as a function of
the transport event: send errors become `NetworkError` (classified by
timeout/connect), status 429 becomes `RateLimited`, any status other than 200
(`StatusCode::OK`) becomes `HttpError(status)`, and a body-read failure on a
200 response becomes `ResponseError`. -/
def do_fetch (ev : TransportEvent) : Except ScraperError ScraperResult :=
  match ev with
  | .failure is_timeout is_connect msg =>
      .error (.NetworkError
        (if is_timeout then "Connection timeout"
         else if is_connect then "Failed to connect to server"
         else msg))
  | .response status body_read =>
      if status == 429 then
        .error .RateLimited
      else if status != 200 then
        .error (.HttpError status)
      else
        match body_read with
        | .error msg => .error (.ResponseError msg)
        | .ok html => .ok { html := html, status := status }

/-- The retry guard of the loop in `Scraper::fetch_page` (lines 192-202):
`RateLimited` always retries, `HttpError(status)` retries iff
`status == 429 || status >= 500`, everything else returns immediately. -/
def is_retryable_error : ScraperError → Bool
  | .RateLimited => true
  | .HttpError status => status == 429 || 500 ≤ status
  | _ => false

/-- The backoff delay of `Scraper::apply_backoff` (lines 137-141):
`backoff_base_ms * 2^attempt` plus a random jitter (drawn from `0..500`).
The jitter is passed in explicitly, so the delay is a pure function. -/
def backoff_delay (base attempt jitter : Nat) : Nat := base * 2 ^ attempt + jitter

/-- Observable trace of one `fetch_page` call: the returned result, how many
times `do_fetch` was invoked, and the backoff delays slept before retries. -/
structure FetchTrace where
  result : Except ScraperError ScraperResult
  attempts : Nat
  backoffs : List Nat
deriving DecidableEq, Repr

/-- The retry loop body of `Scraper::fetch_page` (lines 183-206):
`for attempt in 0..max_retries`, with `apply_backoff(attempt)` before every
attempt except the zeroth, returning success or a non-retryable error
immediately, remembering the last retryable error, and falling out of the
loop with `last_error.unwrap_or(NetworkError("Max retries exceeded"))`.
`transport` maps the attempt index to that attempt's transport event and
`jitter` maps it to that attempt's random jitter. -/
def fetch_attempts (transport : Nat → TransportEvent) (base : Nat)
    (jitter : Nat → Nat) :
    Nat → Nat → Option ScraperError → FetchTrace
  | _, 0, last =>
      ⟨.error (last.getD (.NetworkError "Max retries exceeded")), 0, []⟩
  | attempt, remaining + 1, _ =>
      let ds := if 0 < attempt then [backoff_delay base attempt (jitter attempt)] else []
      match do_fetch (transport attempt) with
      | .ok r => ⟨.ok r, 1, ds⟩
      | .error e =>
          if is_retryable_error e then
            let t := fetch_attempts transport base jitter (attempt + 1) remaining (some e)
            ⟨t.result, t.attempts + 1, ds ++ t.backoffs⟩
          else
            ⟨.error e, 1, ds⟩

/-- `Scraper::fetch_page` (`src/scraper/mod.rs` lines 176-207), abstracting
the pre-request pacing delay (which does not affect the result): run up to
`max_retries` attempts starting at attempt index 0 with no last error. -/
def fetch_page (transport : Nat → TransportEvent) (base : Nat)
    (jitter : Nat → Nat) (max_retries : Nat) : FetchTrace :=
  fetch_attempts transport base jitter 0 max_retries none

/-- A transport that always answers HTTP 500 with a readable body. -/
def transport500 : Nat → TransportEvent :=
  fun _ => .response 500 (.ok "err")

/-- A transport whose first (and every) send fails with connection refused
(reqwest `is_connect()` classification). -/
def transportRefused : Nat → TransportEvent :=
  fun _ => .failure false true "connection refused"




/-! ## Data model of the crawl (`src/parser/mod.rs`, `src/models/mod.rs`) -/

/-- `AnimeListItem` (`src/parser/mod.rs` lines 75-91): one summary record of
a catalog page. -/
structure AnimeListItem where
  slug : String
  title : String
  url : String
  thumbnail : String
  status : String
  anime_type : String
  episode_status : String
deriving DecidableEq, Repr

/-- `CrawledAnime` (`src/models/mod.rs` lines 223-239): the catalog record
persisted by the crawler, keyed by `slug`. -/
structure CrawledAnime where
  slug : String
  title : String
  url : String
  thumbnail : String
  status : String
  anime_type : String
  episode_status : String
deriving DecidableEq, Repr

/-- `Episode` (`src/parser/mod.rs` lines 96-107): one child item of a detail
page. -/
structure Episode where
  slug : String
  number : String
  title : String
  url : String
  release_date : String
deriving DecidableEq, Repr

/-- `VideoSource` (`src/parser/mod.rs` lines 112-119): one leaf record of an
episode. -/
structure VideoSource where
  server : String
  quality : String
  url : String
deriving DecidableEq, Repr

/-- `EpisodeDetail` (`src/parser/mod.rs` lines 124-131), restricted to the
fields the crawl pipeline reads (`title`, `sources`; `default_video` is
passed through untouched). -/
structure EpisodeDetail where
  title : String
  sources : List VideoSource
deriving DecidableEq, Repr

/-- `AnimeDetail` (`src/parser/mod.rs` lines 136-174), restricted to the
fields the crawl pipeline reads (`title` as the parser's soft not-found
signal, `episodes` as the ordered child list; the remaining string fields are
persisted verbatim and never branched on). -/
structure AnimeDetail where
  title : String
  episodes : List Episode
deriving DecidableEq, Repr

/-- `extract_slug_from_url` (`src/routes/mod.rs` lines 474-480):
`url.trim_end_matches('/').rsplit('/').next().unwrap_or("")`, i.e. strip
trailing slashes, then keep the segment after the last remaining slash. -/
def extract_slug_from_url (url : String) : String :=
  let trimmed := url.toList.reverse.dropWhile (· == '/')
  String.mk (trimmed.takeWhile (· != '/')).reverse




/-! ## Crawl orchestrator (`run_crawler`, `src/routes/mod.rs` lines 495-632)

The handler's effects are modelled by an oracle environment: each field maps
the inputs the code passes to that collaborator to the outcome the
collaborator produces (fetch-and-parse steps yield `Except ScraperError`
values because the parser itself never fails; database writes yield
`Except String Unit`). -/

/-- Oracle environment for one `run_crawler` invocation. -/
structure CrawlEnv where
  /-- `scraper.fetch_page(anime_list url for page n)` followed by
  `parse_anime_list`. -/
  fetchListPage : Nat → Except ScraperError (List AnimeListItem)
  /-- `save_crawled_anime_batch`. -/
  saveBatch : List CrawledAnime → Except String Unit
  /-- `scraper.fetch_page(anime url for slug)` followed by
  `parse_anime_detail`. -/
  fetchDetail : String → Except ScraperError AnimeDetail
  /-- `save_anime_detail_with_episodes`. -/
  saveDetail : String → AnimeDetail → Except String Unit
  /-- `scraper.fetch_page(episode url for episode_slug)` followed by
  `parse_episode_detail`. -/
  fetchEpisode : String → Except ScraperError EpisodeDetail
  /-- `save_video_sources` (keyed by the episode's original `url` field). -/
  saveSources : String → List VideoSource → Except String Unit

/-- The `Display` rendering of `ScraperError` given by its `thiserror`
attributes (`src/scraper/mod.rs` lines 14-31). -/
def scraper_error_message : ScraperError → String
  | .NetworkError reason => "Failed to connect to server: " ++ reason
  | .HttpError code => "Server returned status " ++ toString code
  | .ResponseError reason => "Failed to read response body: " ++ reason
  | .RateLimited => "Rate limited, retry after delay"

/-- The mutable counters and error list of `run_crawler`
(`src/routes/mod.rs` lines 500-504), i.e. the fields of the
`CrawlerResponse` it finally returns.  The `i32` counters are modelled as
`Int` (their values in this development stay far below `2^31`). -/
structure CrawlerSummary where
  total_crawled : Int
  total_episodes : Int
  total_video_sources : Int
  pages_processed : Int
  errors : List String
deriving DecidableEq, Repr

/-- The all-zero summary `run_crawler` starts from. -/
def initSummary : CrawlerSummary := ⟨0, 0, 0, 0, []⟩

/-- Which `break` ended the `run_crawler` loop: the empty-page
(end-of-catalog) break at the given page, or one of the `page > 1000`
checks. -/
inductive StopReason where
  | emptyPage (page : Nat)
  | pageBound
deriving DecidableEq, Repr

/-- The inner episode loop body of `run_crawler` (`src/routes/mod.rs` lines
584-609): fetch the episode page; on success save the video sources when
non-empty (counting them, recording a save failure); on fetch failure record
the error and continue. -/
def process_episode (env : CrawlEnv) (s : CrawlerSummary) (episode : Episode) :
    CrawlerSummary :=
  let episode_slug := extract_slug_from_url episode.url
  match env.fetchEpisode episode_slug with
  | .ok episode_detail =>
      if episode_detail.sources.isEmpty then s
      else
        match env.saveSources episode.url episode_detail.sources with
        | .error e =>
            { s with errors := s.errors ++
                ["Failed to save video sources for " ++ episode_slug ++ ": " ++ e] }
        | .ok _ =>
            { s with total_video_sources :=
                s.total_video_sources + episode_detail.sources.length }
  | .error e =>
      { s with errors := s.errors ++
          ["Failed to fetch episode " ++ episode_slug ++ ": " ++ scraper_error_message e] }

/-- The per-item loop body of `run_crawler` (`src/routes/mod.rs` lines
556-610): fetch the detail page (an empty parsed title skips the item with
only a warning, a fetch error is recorded), save the detail with its episodes
(counting the episodes on success, recording a failure), then walk its
episodes. -/
def process_anime (env : CrawlEnv) (s : CrawlerSummary) (anime : CrawledAnime) :
    CrawlerSummary :=
  match env.fetchDetail anime.slug with
  | .error e =>
      { s with errors := s.errors ++
          ["Failed to fetch anime detail for " ++ anime.slug ++ ": " ++
            scraper_error_message e] }
  | .ok detail =>
      if detail.title.isEmpty then s
      else
        let s1 :=
          match env.saveDetail anime.slug detail with
          | .error e =>
              { s with errors := s.errors ++
                  ["Failed to save anime detail for " ++ anime.slug ++ ": " ++ e] }
          | .ok _ =>
              { s with total_episodes := s.total_episodes + detail.episodes.length }
        detail.episodes.foldl (process_episode env) s1

/-- The `CrawledAnime` built from one `AnimeListItem` (`src/routes/mod.rs`
lines 535-546), with the slug re-derived from the item's url. -/
def crawled_of_item (item : AnimeListItem) : CrawledAnime :=
  { slug := extract_slug_from_url item.url
    title := item.title
    url := item.url
    thumbnail := item.thumbnail
    status := item.status
    anime_type := item.anime_type
    episode_status := item.episode_status }

/-- The body of one successful non-empty iteration of the `run_crawler` loop
(`src/routes/mod.rs` lines 533-610): count the page, build the batch, save it
(counting its items on success, recording a failure), then process each item
in order. -/
def page_step (env : CrawlEnv) (page : Nat) (s : CrawlerSummary)
    (items : List AnimeListItem) : CrawlerSummary :=
  let s1 := { s with pages_processed := s.pages_processed + 1 }
  let crawled := items.map crawled_of_item
  let s2 :=
    match env.saveBatch crawled with
    | .error e =>
        { s1 with errors := s1.errors ++
            ["Failed to save crawled anime batch on page " ++ toString page ++ ": " ++ e] }
    | .ok _ =>
        { s1 with total_crawled := s1.total_crawled + crawled.length }
  crawled.foldl (process_anime env) s2

/-- The `loop` of `run_crawler` (`src/routes/mod.rs` lines 508-618) starting
at the given page cursor: a failed page fetch records an error and advances
(breaking when the incremented page exceeds 1000); an empty item list breaks
immediately (end of catalog, without counting the page); otherwise the page
is processed and the cursor advances (again breaking past 1000).  The
returned `StopReason` records which `break` ended the loop. -/
def crawl_loop (env : CrawlEnv) (page : Nat) (s : CrawlerSummary) :
    CrawlerSummary × StopReason :=
  match env.fetchListPage page with
  | .error e =>
      let s' := { s with errors := s.errors ++
          ["Failed to fetch page " ++ toString page ++ ": " ++ scraper_error_message e] }
      if page + 1 > 1000 then (s', .pageBound)
      else crawl_loop env (page + 1) s'
  | .ok items =>
      if items.isEmpty then (s, .emptyPage page)
      else
        let s' := page_step env page s items
        if page + 1 > 1000 then (s', .pageBound)
        else crawl_loop env (page + 1) s'
termination_by 1000 - page
decreasing_by all_goals omega

/-- `run_crawler` (`src/routes/mod.rs` lines 495-632): run the loop from
page 1 with all counters zero. -/
def run_crawler (env : CrawlEnv) : CrawlerSummary × StopReason :=
  crawl_loop env 1 initSummary

/-! ## Single-key cached-fetch path (`get_anime_by_slug`,
`src/routes/mod.rs` lines 331-419) -/

/-- Oracle environment for one `get_anime_by_slug` invocation: what each
collaborator answers for the one slug being requested. -/
structure DetailEnv where
  /-- `is_cache_valid(pool, cache_key, DEFAULT_CACHE_TTL_MS)`. -/
  cacheValid : Except String Bool
  /-- `get_anime_detail(pool, slug)`. -/
  storeRead : Except String (Option AnimeDetail)
  /-- `scraper.fetch_page(anime url for slug)`: the raw html body. -/
  fetchResult : Except ScraperError String
  /-- `parse_anime_detail`, the pure never-failing external parser. -/
  parse : String → AnimeDetail

/-- The HTTP outcome of `get_anime_by_slug`, abstracted from the concrete
`HttpResponse`s it builds. -/
inductive DetailOutcome where
  | ok (detail : AnimeDetail)
  | notFound
  | dbError (msg : String)
  | fetchFailed (e : ScraperError)
deriving DecidableEq, Repr

/-- `scrape_and_save_anime_detail` (`src/routes/mod.rs` lines 365-396),
returning the outcome together with two booleans recording whether
`save_anime_detail_with_episodes` and `update_cache_timestamp` were invoked
(their own failures are only logged, so the outcome does not depend on
them). -/
def scrape_and_save_anime_detail (env : DetailEnv) : DetailOutcome × Bool × Bool :=
  match env.fetchResult with
  | .error e => (.fetchFailed e, false, false)
  | .ok html =>
      let detail := env.parse html
      if detail.title.isEmpty then (.notFound, false, false)
      else (.ok detail, true, true)

/-- `scrape_anime_detail_only` (`src/routes/mod.rs` lines 399-419): the
fallback used when the cache-validity check itself errors; it never writes. -/
def scrape_anime_detail_only (env : DetailEnv) : DetailOutcome × Bool × Bool :=
  match env.fetchResult with
  | .error e => (.fetchFailed e, false, false)
  | .ok html =>
      let detail := env.parse html
      if detail.title.isEmpty then (.notFound, false, false)
      else (.ok detail, false, false)

/-- `get_anime_by_slug` (`src/routes/mod.rs` lines 331-362): fresh cache and
present store row returns the stored row; fresh cache with an absent row, or
a stale cache, scrapes and saves; a failed validity check scrapes without
saving; a failed store read is a database error. -/
def get_anime_by_slug (env : DetailEnv) : DetailOutcome × Bool × Bool :=
  match env.cacheValid with
  | .ok true =>
      match env.storeRead with
      | .ok (some detail) => (.ok detail, false, false)
      | .ok none => scrape_and_save_anime_detail env
      | .error e => (.dbError ("Database error: " ++ e), false, false)
  | .ok false => scrape_and_save_anime_detail env
  | .error _ => scrape_anime_detail_only env

/-! ## Persistence store: video sources (`save_video_sources`,
`src/db/repository.rs` lines 473-500)

The `video_sources` table is modelled as an ordered list of rows (dropping
the `id`/`updated_at` columns never read by this pipeline).  The function
runs its statements directly on the pool — there is no transaction — so the
effect of every statement completed before a failure persists.  `failAt`
says which statement, if any, the database fails on: `some 0` is the
`DELETE`, `some (i+1)` is the insert of the i-th source. -/

/-- One row of `video_sources`. -/
structure VideoRow where
  episode_url : String
  server : String
  quality : String
  url : String
deriving DecidableEq, Repr

/-- The row inserted for one `VideoSource` of an episode. -/
def video_row_of (episode_url : String) (s : VideoSource) : VideoRow :=
  ⟨episode_url, s.server, s.quality, s.url⟩

/-- `DELETE FROM video_sources WHERE episode_url = $1`. -/
def delete_sources (db : List VideoRow) (episode_url : String) : List VideoRow :=
  db.filter (fun r => r.episode_url != episode_url)

/-- The insert loop of `save_video_sources`: one `INSERT` per source, in
order, each of which can fail (statement index `idx` counts from the
`DELETE` at 0). -/
def insert_sources (failAt : Option Nat) (episode_url : String) :
    Nat → List VideoRow → List VideoSource → Except String Unit × List VideoRow
  | _, db, [] => (.ok (), db)
  | idx, db, s :: rest =>
      if failAt = some idx then (.error "statement failed", db)
      else insert_sources failAt episode_url (idx + 1)
        (db ++ [video_row_of episode_url s]) rest

/-- `save_video_sources` (`src/db/repository.rs` lines 473-500): delete the
episode's existing rows, then insert the new sources one by one, with no
transaction around the statements. -/
def save_video_sources (failAt : Option Nat) (db : List VideoRow)
    (episode_url : String) (sources : List VideoSource) :
    Except String Unit × List VideoRow :=
  if failAt = some 0 then (.error "statement failed", db)
  else insert_sources failAt episode_url 1 (delete_sources db episode_url) sources

/-! ## Persistence store: catalog batch (`save_crawled_anime_batch`,
`src/db/repository.rs` lines 801-841)

The `crawled_anime` table is modelled as an ordered list of `CrawledAnime`
rows with at most one row per slug.  The batch runs inside one transaction:
statement `i` (counting from 0) is the upsert of the i-th record and
statement `batch.length` is the `COMMIT`; if any of them fails the
transaction is dropped and rolls back, leaving the stored state unchanged. -/

/-- `INSERT ... ON CONFLICT (slug) DO UPDATE`: replace the row with the same
slug if present, else append. -/
def upsert_crawled (db : List CrawledAnime) (a : CrawledAnime) : List CrawledAnime :=
  if db.any (fun r => r.slug == a.slug) then
    db.map (fun r => if r.slug == a.slug then a else r)
  else
    db ++ [a]

/-- The statements of the transaction: the upserts in order, then the
commit. Returns the new table contents, or the error that aborted it. -/
def batch_tx (failAt : Option Nat) :
    Nat → List CrawledAnime → List CrawledAnime → Except String (List CrawledAnime)
  | idx, db, [] => if failAt = some idx then .error "commit failed" else .ok db
  | idx, db, a :: rest =>
      if failAt = some idx then .error "statement failed"
      else batch_tx failAt (idx + 1) (upsert_crawled db a) rest

/-- `save_crawled_anime_batch` (`src/db/repository.rs` lines 801-841): an
empty list returns `Ok` immediately without touching the database; otherwise
the whole batch runs in one transaction whose failure rolls back to the
original state. -/
def save_crawled_anime_batch (failAt : Option Nat) (db : List CrawledAnime)
    (anime_list : List CrawledAnime) : Except String Unit × List CrawledAnime :=
  if anime_list.isEmpty then (.ok (), db)
  else
    match batch_tx failAt 0 db anime_list with
    | .ok db' => (.ok (), db')
    | .error e => (.error e, db)

/-! ## Freshness cache (`src/db/repository.rs` lines 647-698)

The `cache_metadata` table is an association list from `cache_key` to the
`last_fetched` timestamp (milliseconds, as `Int`); `cache_key` is a primary
key, so at most one row per key.  `now` is passed explicitly where the code
reads the clock. -/

/-- The `cache_metadata` table. -/
abbrev CacheDB := List (String × Int)

/-- `SELECT last_fetched FROM cache_metadata WHERE cache_key = $1`. -/
def cache_lookup (db : CacheDB) (cache_key : String) : Option Int :=
  (List.find? (fun p => p.1 == cache_key) db).map (fun p => p.2)

/-- `is_cache_valid` (`src/db/repository.rs` lines 647-672): true iff a row
exists for the key and its age `now - last_fetched` is strictly below
`max_age_ms`; false when no row exists. -/
def is_cache_valid (db : CacheDB) (now : Int) (cache_key : String)
    (max_age_ms : Int) : Bool :=
  match cache_lookup db cache_key with
  | some last_fetched => now - last_fetched < max_age_ms
  | none => false

/-- `update_cache_timestamp` (`src/db/repository.rs` lines 684-698):
`INSERT ... ON CONFLICT (cache_key) DO UPDATE SET last_fetched =
CURRENT_TIMESTAMP` — set the row's timestamp to now, inserting the row if
absent. -/
def update_cache_timestamp (db : CacheDB) (now : Int) (cache_key : String) :
    CacheDB :=
  if db.any (fun p => p.1 == cache_key) then
    db.map (fun p => if p.1 == cache_key then (p.1, now) else p)
  else
    db ++ [(cache_key, now)]

/-! ## User-agent identity profiles (`src/scraper/mod.rs` lines 70-84 and
144-173) -/

/-- `str::contains` for a substring pattern, over character lists. -/
def char_list_has_pre : List Char → List Char → Bool
  | [], _ => true
  | _ :: _, [] => false
  | p :: ps, c :: cs => p == c && char_list_has_pre ps cs

/-- Substring search used by `str::contains`. -/
def char_list_has_sub (pat : List Char) : List Char → Bool
  | [] => char_list_has_pre pat []
  | c :: cs => char_list_has_pre pat (c :: cs) || char_list_has_sub pat cs

/-- Rust `user_agent.contains(pat)`. -/
def str_contains (s pat : String) : Bool :=
  char_list_has_sub pat.toList s.toList

/-- The `USER_AGENTS` pool (`src/scraper/mod.rs` lines 70-84), in order:
Chrome/120 Windows, Chrome/119 Windows, Chrome/120 macOS, Firefox Windows,
Firefox macOS, Safari macOS, Edge Windows. -/
def USER_AGENTS : List String :=
  [ "Mozilla/5.0 (Windows NT 10.0; Win64; x64) AppleWebKit/537.36 (KHTML, like Gecko) Chrome/120.0.0.0 Safari/537.36"
  , "Mozilla/5.0 (Windows NT 10.0; Win64; x64) AppleWebKit/537.36 (KHTML, like Gecko) Chrome/119.0.0.0 Safari/537.36"
  , "Mozilla/5.0 (Macintosh; Intel Mac OS X 10_15_7) AppleWebKit/537.36 (KHTML, like Gecko) Chrome/120.0.0.0 Safari/537.36"
  , "Mozilla/5.0 (Windows NT 10.0; Win64; x64; rv:121.0) Gecko/20100101 Firefox/121.0"
  , "Mozilla/5.0 (Macintosh; Intel Mac OS X 10.15; rv:121.0) Gecko/20100101 Firefox/121.0"
  , "Mozilla/5.0 (Macintosh; Intel Mac OS X 10_15_7) AppleWebKit/605.1.15 (KHTML, like Gecko) Version/17.2 Safari/605.1.15"
  , "Mozilla/5.0 (Windows NT 10.0; Win64; x64) AppleWebKit/537.36 (KHTML, like Gecko) Chrome/120.0.0.0 Safari/537.36 Edg/120.0.0.0" ]

/-- `Scraper::get_sec_ch_ua` (`src/scraper/mod.rs` lines 144-173): the
`(Sec-Ch-Ua, Sec-Ch-Ua-Mobile, Sec-Ch-Ua-Platform)` header triple chosen by
substring tests on the user-agent string, in the source's branch order; the
empty triple means the headers are omitted (`do_fetch` lines 229-235 adds
them only when `sec_ch_ua` is non-empty). -/
def get_sec_ch_ua (user_agent : String) : String × String × String :=
  if str_contains user_agent "Chrome/120" then
    ("\"Not_A Brand\";v=\"8\", \"Chromium\";v=\"120\", \"Google Chrome\";v=\"120\"",
     "?0", "\"Windows\"")
  else if str_contains user_agent "Chrome/119" then
    ("\"Not_A Brand\";v=\"8\", \"Chromium\";v=\"119\", \"Google Chrome\";v=\"119\"",
     "?0", "\"Windows\"")
  else if str_contains user_agent "Edg/" then
    ("\"Not_A Brand\";v=\"8\", \"Chromium\";v=\"120\", \"Microsoft Edge\";v=\"120\"",
     "?0", "\"Windows\"")
  else if str_contains user_agent "Macintosh" then
    ("\"Not_A Brand\";v=\"8\", \"Chromium\";v=\"120\", \"Google Chrome\";v=\"120\"",
     "?0", "\"macOS\"")
  else
    ("", "", "")



/-! ## Concrete witnesses' data -/

/-- A concrete catalog item. -/
def item0 : AnimeListItem :=
  ⟨"one-piece", "One Piece", "https://sokuja.uk/anime/one-piece/", "thumb.jpg",
    "Ongoing", "TV", "Episode 1100"⟩

/-- An environment whose catalog transport returns a non-empty page for every
page number (infinite pagination) and whose other collaborators all
succeed. -/
def envInf : CrawlEnv :=
  { fetchListPage := fun _ => .ok [item0]
    saveBatch := fun _ => .ok ()
    fetchDetail := fun _ => .ok ⟨"One Piece", []⟩
    saveDetail := fun _ _ => .ok ()
    fetchEpisode := fun _ => .ok ⟨"Ep", []⟩
    saveSources := fun _ _ => .ok () }

/-- An environment whose catalog transport returns non-empty pages 1 and 2
and an empty page 3, with all other collaborators succeeding. -/
def env3 : CrawlEnv :=
  { fetchListPage := fun n => if n < 3 then .ok [item0] else .ok []
    saveBatch := fun _ => .ok ()
    fetchDetail := fun _ => .ok ⟨"One Piece", []⟩
    saveDetail := fun _ _ => .ok ()
    fetchEpisode := fun _ => .ok ⟨"Ep", []⟩
    saveSources := fun _ _ => .ok () }

/-- A stored detail record distinct from anything the parser produces in the
witness environments. -/
def dStored : AnimeDetail := ⟨"Stored Title", []⟩

/-- Fresh cache, store row present: the handler must serve the stored row. -/
def envFresh : DetailEnv :=
  { cacheValid := .ok true
    storeRead := .ok (some dStored)
    fetchResult := .ok "live html"
    parse := fun _ => ⟨"Live Title", []⟩ }

/-- Fresh cache but the store has nothing (drift): the handler must fetch
live. -/
def envDrift : DetailEnv :=
  { cacheValid := .ok true
    storeRead := .ok none
    fetchResult := .ok "live html"
    parse := fun _ => ⟨"Live Title", []⟩ }

/-- Stale cache and a parser that yields an empty title (soft not-found). -/
def envStaleEmpty : DetailEnv :=
  { cacheValid := .ok false
    storeRead := .ok none
    fetchResult := .ok "live html"
    parse := fun _ => ⟨"", []⟩ }

/-- A pre-existing leaf row owned by episode url "ep1". -/
def rowA : VideoRow := ⟨"ep1", "OLD", "480p", "u-old"⟩

/-- First replacement source. -/
def srcB1 : VideoSource := ⟨"S1", "720p", "u1"⟩

/-- Second replacement source. -/
def srcB2 : VideoSource := ⟨"S2", "1080p", "u2"⟩

/-- Concrete catalog rows for the batch-upsert witness. -/
def caRow1 : CrawledAnime := ⟨"a1", "T1", "u1", "th1", "Ongoing", "TV", "E1"⟩

/-- Second concrete catalog row. -/
def caRow2 : CrawledAnime := ⟨"a2", "T2", "u2", "th2", "Ongoing", "TV", "E2"⟩

/-- Third concrete catalog row. -/
def caRow3 : CrawledAnime := ⟨"a3", "T3", "u3", "th3", "Completed", "ONA", "E3"⟩

/-! ## Helper lemmas: fetch client -/

lemma fetch_attempts_le (transport : Nat → TransportEvent) (base : Nat)
    (jitter : Nat → Nat) :
    ∀ (remaining attempt : Nat) (last : Option ScraperError),
      (fetch_attempts transport base jitter attempt remaining last).attempts ≤ remaining := by
  intro remaining
  induction remaining with
  | zero => intro attempt last; simp [fetch_attempts]
  | succ r ih =>
      intro attempt last
      unfold fetch_attempts
      dsimp only
      cases hdf : do_fetch (transport attempt) with
      | ok v => simp
      | error e =>
          by_cases hr : is_retryable_error e = true
          · simp only [hr, if_true]
            have := ih (attempt + 1) (some e)
            simpa using this
          · simp only [hr, if_false]
            simp

lemma fetch_attempts_all_retryable (transport : Nat → TransportEvent)
    (base : Nat) (jitter : Nat → Nat) (e : Nat → ScraperError)
    (h : ∀ i, do_fetch (transport i) = .error (e i) ∧ is_retryable_error (e i) = true) :
    ∀ (remaining attempt : Nat), 1 ≤ attempt → 1 ≤ remaining →
      ∀ (last : Option ScraperError),
      fetch_attempts transport base jitter attempt remaining last =
        ⟨.error (e (attempt + remaining - 1)), remaining,
          (List.range' attempt remaining).map (fun i => backoff_delay base i (jitter i))⟩ := by
  intro remaining
  induction remaining with
  | zero => intro attempt _ h0; omega
  | succ r ih =>
      intro attempt ha _ last
      unfold fetch_attempts
      dsimp only
      rw [(h attempt).1]
      simp only [(h attempt).2, if_true]
      have hds : (0 < attempt) = True := by simp; omega
      cases r with
      | zero =>
          simp [fetch_attempts, hds, List.range']
      | succ r' =>
          rw [ih (attempt + 1) (by omega) (by omega) (some (e attempt))]
          have harith : attempt + 1 + (r' + 1) - 1 = attempt + (r' + 1 + 1) - 1 := by omega
          simp [hds, List.range', harith]

/-! ## Helper lemmas: crawl loop -/

lemma process_episode_pages_processed (env : CrawlEnv) (s : CrawlerSummary)
    (episode : Episode) :
    (process_episode env s episode).pages_processed = s.pages_processed := by
  rcases hfe : env.fetchEpisode (extract_slug_from_url episode.url) with e | d
  · simp [process_episode, hfe]
  · rcases hsv : env.saveSources episode.url d.sources with e | u <;>
      · simp only [process_episode, hfe, hsv]
        split <;> rfl

lemma foldl_process_episode_pages_processed (env : CrawlEnv) :
    ∀ (l : List Episode) (s : CrawlerSummary),
      (l.foldl (process_episode env) s).pages_processed = s.pages_processed := by
  intro l
  induction l with
  | nil => intro s; rfl
  | cons ep eps ih =>
      intro s
      rw [List.foldl_cons, ih, process_episode_pages_processed]

lemma process_anime_pages_processed (env : CrawlEnv) (s : CrawlerSummary)
    (anime : CrawledAnime) :
    (process_anime env s anime).pages_processed = s.pages_processed := by
  rcases hfd : env.fetchDetail anime.slug with e | detail
  · simp [process_anime, hfd]
  · rcases hsd : env.saveDetail anime.slug detail with e | u <;>
      · simp only [process_anime, hfd, hsd]
        split
        · rfl
        · rw [foldl_process_episode_pages_processed]

lemma foldl_process_anime_pages_processed (env : CrawlEnv) :
    ∀ (l : List CrawledAnime) (s : CrawlerSummary),
      (l.foldl (process_anime env) s).pages_processed = s.pages_processed := by
  intro l
  induction l with
  | nil => intro s; rfl
  | cons a as ih =>
      intro s
      rw [List.foldl_cons, ih, process_anime_pages_processed]

lemma page_step_pages_processed (env : CrawlEnv) (page : Nat)
    (s : CrawlerSummary) (items : List AnimeListItem) :
    (page_step env page s items).pages_processed = s.pages_processed + 1 := by
  rcases hsb : env.saveBatch (items.map crawled_of_item) with e | u <;>
    · simp only [page_step, hsb]
      rw [foldl_process_anime_pages_processed]

lemma crawl_loop_empty (env : CrawlEnv) (page : Nat) (s : CrawlerSummary)
    (hf : env.fetchListPage page = .ok []) :
    crawl_loop env page s = (s, .emptyPage page) := by
  rw [crawl_loop, hf]
  simp

lemma crawl_loop_step (env : CrawlEnv) (page : Nat) (s : CrawlerSummary)
    (items : List AnimeListItem) (hf : env.fetchListPage page = .ok items)
    (he : items.isEmpty = false) (hp : page + 1 ≤ 1000) :
    crawl_loop env page s = crawl_loop env (page + 1) (page_step env page s items) := by
  rw [crawl_loop, hf]
  simp only [he, Bool.false_eq_true, if_false]
  rw [if_neg (by omega)]

lemma crawl_loop_last (env : CrawlEnv) (page : Nat) (s : CrawlerSummary)
    (items : List AnimeListItem) (hf : env.fetchListPage page = .ok items)
    (he : items.isEmpty = false) (hp : page + 1 > 1000) :
    crawl_loop env page s = (page_step env page s items, .pageBound) := by
  rw [crawl_loop, hf]
  simp only [he, Bool.false_eq_true, if_false]
  rw [if_pos hp]

lemma crawl_loop_all_nonempty (env : CrawlEnv)
    (h : ∀ n, ∃ items, env.fetchListPage n = .ok items ∧ items.isEmpty = false) :
    ∀ (k page : Nat) (s : CrawlerSummary), page + k = 1000 →
      (crawl_loop env page s).1.pages_processed = s.pages_processed + ((k : Int) + 1) ∧
      (crawl_loop env page s).2 = .pageBound := by
  intro k
  induction k with
  | zero =>
      intro page s hpage
      obtain ⟨items, hf, he⟩ := h page
      have hpe : page = 1000 := by omega
      subst hpe
      rw [crawl_loop_last env 1000 s items hf he (by omega)]
      refine ⟨?_, rfl⟩
      rw [page_step_pages_processed]
      push_cast
      ring
  | succ k ih =>
      intro page s hpage
      obtain ⟨items, hf, he⟩ := h page
      rw [crawl_loop_step env page s items hf he (by omega)]
      obtain ⟨h1, h2⟩ := ih (page + 1) (page_step env page s items) (by omega)
      refine ⟨?_, h2⟩
      rw [h1, page_step_pages_processed]
      push_cast
      ring

/-! ## Helper lemmas: video sources -/

lemma insert_sources_none (episode_url : String) :
    ∀ (sources : List VideoSource) (idx : Nat) (db : List VideoRow),
      insert_sources none episode_url idx db sources =
        (.ok (), db ++ sources.map (video_row_of episode_url)) := by
  intro sources
  induction sources with
  | nil => intro idx db; simp [insert_sources]
  | cons s rest ih =>
      intro idx db
      rw [insert_sources]
      simp only [reduceCtorEq, if_false]
      rw [ih]
      simp

lemma filter_delete_sources (episode_url : String) :
    ∀ db : List VideoRow,
      (delete_sources db episode_url).filter (fun r => r.episode_url == episode_url) = [] := by
  intro db
  induction db with
  | nil => rfl
  | cons r rs ih =>
      by_cases hr : r.episode_url == episode_url
      · simp only [delete_sources] at ih ⊢
        simp [hr, ih]
      · simp only [delete_sources] at ih ⊢
        simp [hr, ih]

lemma filter_new_rows (episode_url : String) :
    ∀ sources : List VideoSource,
      (sources.map (video_row_of episode_url)).filter
          (fun r => r.episode_url == episode_url) =
        sources.map (video_row_of episode_url) := by
  intro sources
  induction sources with
  | nil => rfl
  | cons s rest ih => simp [video_row_of, ih]

lemma delete_sources_append (episode_url : String) (db1 db2 : List VideoRow) :
    delete_sources (db1 ++ db2) episode_url =
      delete_sources db1 episode_url ++ delete_sources db2 episode_url := by
  simp [delete_sources, List.filter_append]

lemma delete_sources_idem (episode_url : String) (db : List VideoRow) :
    delete_sources (delete_sources db episode_url) episode_url =
      delete_sources db episode_url := by
  unfold delete_sources
  rw [List.filter_filter]
  congr 1
  funext r
  rw [Bool.and_self]

lemma delete_sources_new_rows (episode_url : String) :
    ∀ sources : List VideoSource,
      delete_sources (sources.map (video_row_of episode_url)) episode_url = [] := by
  intro sources
  induction sources with
  | nil => rfl
  | cons s rest ih =>
      simp only [delete_sources] at ih ⊢
      simp [video_row_of, ih]

/-! ## Helper lemmas: catalog batch -/

lemma batch_tx_ok (failAt : Option Nat) :
    ∀ (l : List CrawledAnime) (idx : Nat) (db db' : List CrawledAnime),
      batch_tx failAt idx db l = .ok db' → db' = l.foldl upsert_crawled db := by
  intro l
  induction l with
  | nil =>
      intro idx db db' h
      rw [batch_tx] at h
      by_cases hf : failAt = some idx
      · simp [hf] at h
      · simp only [hf, if_false] at h
        cases h
        rfl
  | cons a rest ih =>
      intro idx db db' h
      rw [batch_tx] at h
      by_cases hf : failAt = some idx
      · simp [hf] at h
      · simp only [hf, if_false] at h
        rw [List.foldl_cons]
        exact ih (idx + 1) (upsert_crawled db a) db' h

/-! ## Helper lemmas: freshness cache -/

lemma cache_lookup_cons (p : String × Int) (ps : CacheDB) (cache_key : String) :
    cache_lookup (p :: ps) cache_key =
      if p.1 == cache_key then some p.2 else cache_lookup ps cache_key := by
  unfold cache_lookup
  cases h : (p.1 == cache_key) with
  | true => simp [List.find?, h]
  | false => simp [List.find?, h]

lemma cache_lookup_map_refresh (cache_key : String) (now : Int) :
    ∀ db : CacheDB,
      cache_lookup (db.map (fun p => if p.1 == cache_key then (p.1, now) else p)) cache_key =
        (cache_lookup db cache_key).map (fun _ => now) := by
  intro db
  induction db with
  | nil => rfl
  | cons p ps ih =>
      rw [List.map_cons]
      by_cases hp : (p.1 == cache_key) = true
      · have h1 : ((if p.1 == cache_key then (p.1, now) else p) : String × Int) = (p.1, now) :=
          if_pos hp
        rw [h1, cache_lookup_cons, cache_lookup_cons]
        simp [hp]
      · have h1 : ((if p.1 == cache_key then (p.1, now) else p) : String × Int) = p :=
          if_neg hp
        rw [h1, cache_lookup_cons, cache_lookup_cons, if_neg hp, if_neg hp, ih]

lemma cache_lookup_append_new (cache_key : String) (now : Int) :
    ∀ db : CacheDB, db.any (fun p => p.1 == cache_key) = false →
      cache_lookup (db ++ [(cache_key, now)]) cache_key = some now := by
  intro db
  induction db with
  | nil => intro _; simp [cache_lookup, List.find?]
  | cons p ps ih =>
      intro h
      rw [List.any_cons, Bool.or_eq_false_iff] at h
      have hpred : ¬((p.1 == cache_key) = true) := by simp [h.1]
      rw [List.cons_append, cache_lookup_cons, if_neg hpred]
      exact ih h.2

lemma cache_lookup_of_any (cache_key : String) :
    ∀ db : CacheDB, db.any (fun p => p.1 == cache_key) = true →
      ∃ v, cache_lookup db cache_key = some v := by
  intro db
  induction db with
  | nil => intro h; simp at h
  | cons p ps ih =>
      intro h
      by_cases hp : p.1 == cache_key
      · exact ⟨p.2, by simp [cache_lookup, List.find?, hp]⟩
      · simp only [List.any_cons, hp, Bool.false_or] at h
        obtain ⟨v, hv⟩ := ih h
        exact ⟨v, by simpa [cache_lookup, List.find?, hp] using hv⟩

lemma cache_lookup_update (db : CacheDB) (now : Int) (cache_key : String) :
    cache_lookup (update_cache_timestamp db now cache_key) cache_key = some now := by
  unfold update_cache_timestamp
  by_cases h : db.any (fun p => p.1 == cache_key)
  · obtain ⟨v, hv⟩ := cache_lookup_of_any cache_key db h
    rw [if_pos h, cache_lookup_map_refresh, hv]
    rfl
  · rw [if_neg h, cache_lookup_append_new cache_key now db (Bool.eq_false_iff.mpr h)]

/-! ## Claim theorems -/

/-- C1. For every transport behaviour the bulk traversal `run_crawler`
terminates (it is a total function of its oracle environment); against a
transport that returns a non-empty catalog page for every page number
(infinite pagination), the run stops via the configured maximum page count of
1000 and the returned summary has `pages_processed` equal to 1000, not
more. -/
theorem run_crawler_page_bound (env : CrawlEnv)
    (h : ∀ n, ∃ items, env.fetchListPage n = .ok items ∧ items.isEmpty = false) :
    (run_crawler env).1.pages_processed = 1000 ∧ (run_crawler env).2 = .pageBound := by
  obtain ⟨h1, h2⟩ := crawl_loop_all_nonempty env h 999 1 initSummary (by omega)
  refine ⟨?_, h2⟩
  rw [run_crawler, h1]
  rfl

/-- Witness for C1: the concrete always-non-empty environment `envInf`
satisfies the hypothesis, and the bound applies to it. -/
theorem run_crawler_page_bound_witness :
    (∀ n, ∃ items, envInf.fetchListPage n = .ok items ∧ items.isEmpty = false) ∧
      (run_crawler envInf).1.pages_processed = 1000 := by
  have hyp : ∀ n, ∃ items, envInf.fetchListPage n = .ok items ∧ items.isEmpty = false :=
    fun _ => ⟨[item0], rfl, rfl⟩
  exact ⟨hyp, (run_crawler_page_bound envInf hyp).1⟩

/-- C3 (counterexample): with a transport returning non-empty pages 1 and 2
and an empty page 3 (`env3`), the run does terminate via the zero-items
condition at page 3, but the summary reports `pages_processed = 2`, not 3:
the code increments `pages_processed` only after a fetch that yields items,
and the empty page is never counted. -/
theorem run_crawler_end_of_catalog_counterexample :
    (run_crawler env3).2 = .emptyPage 3 ∧
      (run_crawler env3).1.pages_processed = 2 ∧
      (run_crawler env3).1.pages_processed ≠ 3 := by
  have h1 : env3.fetchListPage 1 = .ok [item0] := rfl
  have h2 : env3.fetchListPage 2 = .ok [item0] := rfl
  have h3 : env3.fetchListPage 3 = .ok [] := rfl
  have e1 := crawl_loop_step env3 1 initSummary [item0] h1 rfl (by omega)
  have e2 := crawl_loop_step env3 2 (page_step env3 1 initSummary [item0]) [item0] h2 rfl
    (by omega)
  have e3 := crawl_loop_empty env3 3
    (page_step env3 2 (page_step env3 1 initSummary [item0]) [item0]) h3
  rw [run_crawler, e1, e2, e3]
  refine ⟨rfl, ?_, ?_⟩ <;>
    simp [page_step_pages_processed, initSummary]

/-- C3 (amended): if the catalog transport successfully returns non-empty
pages 1 and 2 and an empty page 3, `run_crawler` terminates via the
zero-items end-of-catalog condition (not the page bound) and the returned
summary reports `pages_processed = 2` — the page on which zero items were
found is not counted. -/
theorem run_crawler_end_of_catalog (env : CrawlEnv) (l1 l2 : List AnimeListItem)
    (h1 : env.fetchListPage 1 = .ok l1) (h1e : l1.isEmpty = false)
    (h2 : env.fetchListPage 2 = .ok l2) (h2e : l2.isEmpty = false)
    (h3 : env.fetchListPage 3 = .ok []) :
    (run_crawler env).1.pages_processed = 2 ∧ (run_crawler env).2 = .emptyPage 3 := by
  rw [run_crawler,
    crawl_loop_step env 1 initSummary l1 h1 h1e (by omega),
    crawl_loop_step env 2 (page_step env 1 initSummary l1) l2 h2 h2e (by omega),
    crawl_loop_empty env 3 (page_step env 2 (page_step env 1 initSummary l1) l2) h3]
  refine ⟨?_, rfl⟩
  simp [page_step_pages_processed, initSummary]

/-- Witness for C3 (amended): the concrete environment `env3` satisfies the
hypotheses and the amended conclusion applies to it. -/
theorem run_crawler_end_of_catalog_witness :
    env3.fetchListPage 1 = .ok [item0] ∧ env3.fetchListPage 3 = .ok [] ∧
      (run_crawler env3).1.pages_processed = 2 :=
  ⟨rfl, rfl, (run_crawler_end_of_catalog env3 [item0] [item0] rfl rfl rfl rfl rfl).1⟩

/-- C2. The retry policy of `fetch_page`: at most `max_retries` total
attempts are made; an error the guard does not classify as retryable (only
`RateLimited` and `HttpError(code)` with `code == 429 || code >= 500` are
retryable) is returned immediately after exactly one attempt with no backoff
slept; and when every attempt fails with a retryable error, all
`max_retries` attempts are made, each retry `i` (for `1 ≤ i < max_retries`)
is preceded by the backoff delay `backoff_base * 2^i + jitter i`, and the
last observed retryable error — the one of attempt `max_retries - 1` — is
returned. -/
theorem fetch_page_retry_policy (transport : Nat → TransportEvent) (base : Nat)
    (jitter : Nat → Nat) (max_retries : Nat) :
    (fetch_page transport base jitter max_retries).attempts ≤ max_retries
    ∧ (∀ e, do_fetch (transport 0) = .error e → is_retryable_error e = false →
        1 ≤ max_retries →
        fetch_page transport base jitter max_retries = ⟨.error e, 1, []⟩)
    ∧ (∀ e : Nat → ScraperError,
        (∀ i, do_fetch (transport i) = .error (e i) ∧ is_retryable_error (e i) = true) →
        1 ≤ max_retries →
        fetch_page transport base jitter max_retries =
          ⟨.error (e (max_retries - 1)), max_retries,
            (List.range' 1 (max_retries - 1)).map (fun i => backoff_delay base i (jitter i))⟩) := by
  refine ⟨fetch_attempts_le transport base jitter max_retries 0 none, ?_, ?_⟩
  · intro e he hr hm
    obtain ⟨m, rfl⟩ : ∃ m, max_retries = m + 1 := ⟨max_retries - 1, by omega⟩
    rw [fetch_page, fetch_attempts]
    dsimp only
    rw [he]
    simp [hr]
  · intro e h hm
    obtain ⟨m, rfl⟩ : ∃ m, max_retries = m + 1 := ⟨max_retries - 1, by omega⟩
    rw [fetch_page, fetch_attempts]
    dsimp only
    rw [(h 0).1]
    simp only [(h 0).2, if_true]
    cases m with
    | zero => simp [fetch_attempts, List.range']
    | succ m' =>
        rw [fetch_attempts_all_retryable transport base jitter e h (m' + 1) 1
          (by omega) (by omega) (some (e 0))]
        simp

/-- Witness for C2: a transport always answering HTTP 500 with
`max_retries = 2` yields `HttpError 500` after exactly 2 attempts with one
backoff sleep of `1000 * 2^1 + 0`; a transport raising connection-refused on
the first call yields `NetworkError` after exactly 1 attempt with no
backoff. -/
theorem fetch_page_retry_policy_witness :
    fetch_page transport500 1000 (fun _ => 0) 2 =
      ⟨.error (.HttpError 500), 2, [2000]⟩
    ∧ fetch_page transportRefused 1000 (fun _ => 0) 3 =
      ⟨.error (.NetworkError "Failed to connect to server"), 1, []⟩ := by
  constructor
  · have h := (fetch_page_retry_policy transport500 1000 (fun _ => 0) 2).2.2
      (fun _ => .HttpError 500) (fun _ => ⟨rfl, rfl⟩) (by omega)
    rw [h]
    rfl
  · exact (fetch_page_retry_policy transportRefused 1000 (fun _ => 0) 3).2.1
      (.NetworkError "Failed to connect to server") rfl rfl (by omega)

/-- C5 (counterexample): `do_fetch` does not turn every 2xx response into a
success — HTTP 204 (a 2xx status) is classified as `HttpError 204` because
the code compares against exactly `StatusCode::OK` (200); and a body-read
failure on a 200 response yields the fourth variant `ResponseError`, so
`Network`, `HttpStatus` and `RateLimited` are not the only error variants
`fetch` can return. -/
theorem do_fetch_classification_counterexample :
    do_fetch (.response 204 (.ok "no content")) = .error (.HttpError 204)
    ∧ do_fetch (.response 200 (.error "read failed")) =
        .error (.ResponseError "read failed") :=
  ⟨rfl, rfl⟩

/-- C5 (amended): `do_fetch` classifies every outcome totally as follows: a
transport-level failure yields `NetworkError` (with the timeout/connect
classification of the reason); a response with status 429 yields
`RateLimited`; a response with any status other than 429 and 200 — including
non-200 2xx statuses — yields `HttpError(code)`; a status-200 response with
a readable body yields the successful result `{html, status = 200}`; and a
status-200 response whose body read fails yields `ResponseError`.
`NetworkError`, `HttpError`, `RateLimited` and `ResponseError` are the only
error variants. -/
theorem do_fetch_classification :
    (∀ is_timeout is_connect msg,
      do_fetch (.failure is_timeout is_connect msg) =
        .error (.NetworkError
          (if is_timeout then "Connection timeout"
           else if is_connect then "Failed to connect to server" else msg)))
    ∧ (∀ r, do_fetch (.response 429 r) = .error .RateLimited)
    ∧ (∀ status r, status ≠ 429 → status ≠ 200 →
        do_fetch (.response status r) = .error (.HttpError status))
    ∧ (∀ html, do_fetch (.response 200 (.ok html)) = .ok ⟨html, 200⟩)
    ∧ (∀ msg, do_fetch (.response 200 (.error msg)) = .error (.ResponseError msg)) := by
  refine ⟨fun _ _ _ => rfl, fun _ => rfl, ?_, fun _ => rfl, fun _ => rfl⟩
  intro status r h429 h200
  have b1 : (status == 429) = false := by simp [h429]
  have b2 : (status != 200) = true := by simp [h200]
  rw [do_fetch.eq_def]
  simp [b1, b2]

/-- Witness for C5 (amended): the non-429 non-200 case applied to the
concrete status 503. -/
theorem do_fetch_classification_witness :
    do_fetch (.response 503 (.ok "x")) = .error (.HttpError 503) :=
  do_fetch_classification.2.2.1 503 (.ok "x") (by decide) (by decide)

/-- C10. With `max_retries = 0` the retry loop body never runs: for every
transport `fetch_page` makes zero attempts and returns
`NetworkError("Max retries exceeded")` — a network-classified failure
reported without any network operation having been attempted. -/
theorem fetch_page_zero_retries (transport : Nat → TransportEvent) (base : Nat)
    (jitter : Nat → Nat) :
    fetch_page transport base jitter 0 =
      ⟨.error (.NetworkError "Max retries exceeded"), 0, []⟩ :=
  rfl

/-- C4. The single-key cached-fetch path: (1) when the cache validity check
answers fresh and the store read returns a present (non-empty) value, that
stored value is returned and neither the save nor the cache-timestamp update
is performed; (2) when the cache is fresh but the store has nothing (drift),
or the cache is stale, the handler fetches live, and when the parsed title
is non-empty it persists the result, marks the key refreshed, and returns
the freshly parsed value (never a possibly-different stored copy); (3) in
the same drifted/stale situations, when the parsed result has an empty
title, a not-found outcome is returned and nothing is persisted or marked
refreshed. -/
theorem get_anime_by_slug_cache_contract (env : DetailEnv) :
    (∀ d, env.cacheValid = .ok true → env.storeRead = .ok (some d) →
      get_anime_by_slug env = (.ok d, false, false))
    ∧ (∀ html, env.fetchResult = .ok html → (env.parse html).title.isEmpty = false →
        ((env.cacheValid = .ok true ∧ env.storeRead = .ok none) ∨
          env.cacheValid = .ok false) →
        get_anime_by_slug env = (.ok (env.parse html), true, true))
    ∧ (∀ html, env.fetchResult = .ok html → (env.parse html).title.isEmpty = true →
        ((env.cacheValid = .ok true ∧ env.storeRead = .ok none) ∨
          env.cacheValid = .ok false) →
        get_anime_by_slug env = (.notFound, false, false)) := by
  refine ⟨?_, ?_, ?_⟩
  · intro d hc hs
    rw [get_anime_by_slug, hc, hs]
  · intro html hf ht hc
    have hscrape : scrape_and_save_anime_detail env = (.ok (env.parse html), true, true) := by
      rw [scrape_and_save_anime_detail, hf]
      simp [ht]
    rcases hc with ⟨hc, hs⟩ | hc
    · rw [get_anime_by_slug, hc, hs]
      exact hscrape
    · rw [get_anime_by_slug, hc]
      exact hscrape
  · intro html hf ht hc
    have hscrape : scrape_and_save_anime_detail env = (.notFound, false, false) := by
      rw [scrape_and_save_anime_detail, hf]
      simp [ht]
    rcases hc with ⟨hc, hs⟩ | hc
    · rw [get_anime_by_slug, hc, hs]
      exact hscrape
    · rw [get_anime_by_slug, hc]
      exact hscrape

/-- Witness for C4: the three contract cases applied to the concrete
environments `envFresh` (fresh cache, stored row present), `envDrift`
(fresh cache, store empty) and `envStaleEmpty` (stale cache, parser yields
an empty title). -/
theorem get_anime_by_slug_cache_contract_witness :
    get_anime_by_slug envFresh = (.ok dStored, false, false)
    ∧ get_anime_by_slug envDrift = (.ok ⟨"Live Title", []⟩, true, true)
    ∧ get_anime_by_slug envStaleEmpty = (.notFound, false, false) :=
  ⟨(get_anime_by_slug_cache_contract envFresh).1 dStored rfl rfl,
   (get_anime_by_slug_cache_contract envDrift).2.1 "live html" rfl rfl (.inl ⟨rfl, rfl⟩),
   (get_anime_by_slug_cache_contract envStaleEmpty).2.2 "live html" rfl rfl (.inr rfl)⟩

/-- C6 (counterexample): `save_video_sources` runs its DELETE and INSERTs
directly on the pool with no transaction, so a failure partway through
persists a partially replaced state.  Starting from the single old row
`rowA` owned by "ep1" and replacing with `[srcB1, srcB2]`, a failure on the
second insert (statement index 2) leaves the old row deleted and only the
first new row inserted — a state that is neither the old contents nor the
new list — and that state is what remains stored. -/
theorem save_video_sources_not_atomic :
    (save_video_sources (some 2) [rowA] "ep1" [srcB1, srcB2]).1 =
      .error "statement failed"
    ∧ (save_video_sources (some 2) [rowA] "ep1" [srcB1, srcB2]).2 =
        [⟨"ep1", "S1", "720p", "u1"⟩]
    ∧ (save_video_sources (some 2) [rowA] "ep1" [srcB1, srcB2]).2 ≠ [rowA]
    ∧ (save_video_sources (some 2) [rowA] "ep1" [srcB1, srcB2]).2 ≠
        [srcB1, srcB2].map (video_row_of "ep1") := by
  refine ⟨rfl, rfl, ?_, ?_⟩ <;> decide

/-- C6 (amended): when every statement succeeds, `save_video_sources`
deletes every previously stored row owned by the episode url and inserts
exactly the given list: one call leaves the table at
`delete_sources db key ++ sources`, and after replacing with `A` and then
with `B`, exactly the rows of `B` are stored for that key (none of `A`'s
rows absent from `B` remain) and rows of other keys are untouched.  The
statements do not, however, run in one transaction, so a failure partway
through can persist a partially replaced state. -/
theorem save_video_sources_replace (db : List VideoRow) (episode_url : String)
    (A B : List VideoSource) :
    (save_video_sources none db episode_url A).1 = .ok ()
    ∧ (save_video_sources none db episode_url A).2 =
        delete_sources db episode_url ++ A.map (video_row_of episode_url)
    ∧ (save_video_sources none ((save_video_sources none db episode_url A).2)
        episode_url B).2 =
        delete_sources db episode_url ++ B.map (video_row_of episode_url)
    ∧ ((save_video_sources none ((save_video_sources none db episode_url A).2)
        episode_url B).2).filter (fun r => r.episode_url == episode_url) =
        B.map (video_row_of episode_url) := by
  have hone : ∀ d : List VideoRow, save_video_sources none d episode_url A =
      (.ok (), delete_sources d episode_url ++ A.map (video_row_of episode_url)) := by
    intro d
    rw [save_video_sources]
    simp only [reduceCtorEq, if_false]
    exact insert_sources_none episode_url A 1 (delete_sources d episode_url)
  have honeB : ∀ d : List VideoRow, save_video_sources none d episode_url B =
      (.ok (), delete_sources d episode_url ++ B.map (video_row_of episode_url)) := by
    intro d
    rw [save_video_sources]
    simp only [reduceCtorEq, if_false]
    exact insert_sources_none episode_url B 1 (delete_sources d episode_url)
  have h1 := hone db
  have hdb2 : (save_video_sources none ((save_video_sources none db episode_url A).2)
      episode_url B).2 =
      delete_sources db episode_url ++ B.map (video_row_of episode_url) := by
    rw [h1]
    dsimp only
    rw [honeB]
    dsimp only
    rw [delete_sources_append, delete_sources_idem, delete_sources_new_rows,
      List.append_nil]
  refine ⟨by rw [h1], by rw [h1], hdb2, ?_⟩
  rw [hdb2, List.filter_append, filter_delete_sources, filter_new_rows,
    List.nil_append]

/-- C7. `save_crawled_anime_batch` with an empty record list is a no-op
success (the database is untouched, whatever statement would have failed);
with a non-empty list it is atomic: when it returns `Ok` the stored state is
exactly the batch folded in by slug-keyed upsert (every record landed), and
when it returns an error the stored state is unchanged (none landed). -/
theorem save_crawled_anime_batch_atomic (failAt : Option Nat)
    (db batch : List CrawledAnime) :
    (batch = [] → save_crawled_anime_batch failAt db batch = (.ok (), db))
    ∧ ((save_crawled_anime_batch failAt db batch).1 = .ok () →
        (save_crawled_anime_batch failAt db batch).2 = batch.foldl upsert_crawled db)
    ∧ (∀ e, (save_crawled_anime_batch failAt db batch).1 = .error e →
        (save_crawled_anime_batch failAt db batch).2 = db) := by
  refine ⟨?_, ?_, ?_⟩
  · intro h
    subst h
    rfl
  · intro h
    by_cases hb : batch.isEmpty
    · rw [save_crawled_anime_batch, if_pos hb]
      dsimp only
      cases batch with
      | nil => rfl
      | cons a l => simp at hb
    · rw [save_crawled_anime_batch, if_neg hb] at h ⊢
      cases htx : batch_tx failAt 0 db batch with
      | ok db' =>
          dsimp only
          exact batch_tx_ok failAt batch 0 db db' htx
      | error e =>
          rw [htx] at h
          simp at h
  · intro e h
    by_cases hb : batch.isEmpty
    · rw [save_crawled_anime_batch, if_pos hb] at h
      simp at h
    · rw [save_crawled_anime_batch, if_neg hb] at h ⊢
      cases htx : batch_tx failAt 0 db batch with
      | ok db' =>
          rw [htx] at h
          simp at h
      | error e' =>
          rfl

/-- Witness for C7: the empty batch is a no-op success even under a failing
statement oracle; a successful two-record batch lands both records; a batch
whose second statement fails leaves the one-row table unchanged. -/
theorem save_crawled_anime_batch_atomic_witness :
    save_crawled_anime_batch (some 0) [caRow1] [] = (.ok (), [caRow1])
    ∧ (save_crawled_anime_batch none [] [caRow1, caRow2]).2 =
        [caRow1, caRow2].foldl upsert_crawled []
    ∧ (save_crawled_anime_batch (some 1) [caRow1] [caRow2, caRow3]).2 = [caRow1] :=
  ⟨(save_crawled_anime_batch_atomic (some 0) [caRow1] []).1 rfl,
   (save_crawled_anime_batch_atomic none [] [caRow1, caRow2]).2.1 rfl,
   (save_crawled_anime_batch_atomic (some 1) [caRow1] [caRow2, caRow3]).2.2
     "statement failed" (by decide)⟩

/-- C8. `is_cache_valid` is true iff an entry exists for the key and its age
`now - last_fetched` is strictly below `max_age_ms`; it is false when no
entry exists, and false when the entry's age is at least `max_age_ms`.
Consequently, immediately after `update_cache_timestamp` at time `now`,
`is_cache_valid` at that same time is true for every `t > 0`, and once the
elapsed time since the refresh reaches or exceeds `t` it is false. -/
theorem is_cache_valid_freshness :
    (∀ (db : CacheDB) (now : Int) (cache_key : String) (t : Int),
      is_cache_valid db now cache_key t = true ↔
        ∃ last_fetched, cache_lookup db cache_key = some last_fetched ∧
          now - last_fetched < t)
    ∧ (∀ (db : CacheDB) (now : Int) (cache_key : String) (t : Int),
        cache_lookup db cache_key = none → is_cache_valid db now cache_key t = false)
    ∧ (∀ (db : CacheDB) (now : Int) (cache_key : String) (t last_fetched : Int),
        cache_lookup db cache_key = some last_fetched → t ≤ now - last_fetched →
        is_cache_valid db now cache_key t = false)
    ∧ (∀ (db : CacheDB) (now : Int) (cache_key : String) (t : Int), 0 < t →
        is_cache_valid (update_cache_timestamp db now cache_key) now cache_key t = true)
    ∧ (∀ (db : CacheDB) (now later : Int) (cache_key : String) (t : Int),
        t ≤ later - now →
        is_cache_valid (update_cache_timestamp db now cache_key) later cache_key t
          = false) := by
  have hiff : ∀ (db : CacheDB) (now : Int) (cache_key : String) (t : Int),
      is_cache_valid db now cache_key t = true ↔
        ∃ last_fetched, cache_lookup db cache_key = some last_fetched ∧
          now - last_fetched < t := by
    intro db now cache_key t
    rw [is_cache_valid]
    cases hl : cache_lookup db cache_key with
    | none => simp
    | some last => simp [hl]
  refine ⟨hiff, ?_, ?_, ?_, ?_⟩
  · intro db now cache_key t hl
    rw [is_cache_valid, hl]
  · intro db now cache_key t last hl hage
    rw [is_cache_valid, hl]
    simp
    omega
  · intro db now cache_key t ht
    rw [is_cache_valid, cache_lookup_update]
    simp
    omega
  · intro db now later cache_key t ht
    rw [is_cache_valid, cache_lookup_update]
    simp
    omega

/-- Witness for C8: on the concrete table holding key "updates" refreshed at
time 5, validity holds at time 6 with TTL 2; refreshing an empty table at
time 10 makes the key valid at time 10 for TTL 1 and invalid at time 11 for
TTL 1. -/
theorem is_cache_valid_freshness_witness :
    is_cache_valid [("updates", 5)] 6 "updates" 2 = true
    ∧ is_cache_valid [] 6 "updates" 2 = false
    ∧ is_cache_valid (update_cache_timestamp [] 10 "updates") 10 "updates" 1 = true
    ∧ is_cache_valid (update_cache_timestamp [] 10 "updates") 11 "updates" 1 = false :=
  ⟨(is_cache_valid_freshness.1 [("updates", 5)] 6 "updates" 2).mpr
      ⟨5, rfl, by decide⟩,
   is_cache_valid_freshness.2.1 [] 6 "updates" 2 rfl,
   is_cache_valid_freshness.2.2.2.1 [] 10 "updates" 1 (by decide),
   is_cache_valid_freshness.2.2.2.2 [] 10 11 "updates" 1 (by decide)⟩

/-- C9. The companion-header selection contradicts the claimed (and unit
tested) identity consistency: the Chrome-on-macOS user agent
(`USER_AGENTS[2]`) contains `"Chrome/120"`, so `get_sec_ch_ua` takes the
first branch and returns the platform value `"Windows"` — while the code's
own test `test_sec_ch_ua_headers` asserts `"macOS"` for this user agent.
Likewise the Edge user agent (`USER_AGENTS[6]`) also matches the
`"Chrome/120"` branch and is sent with `"Google Chrome"` branding rather
than Edge branding, and the Firefox-on-macOS user agent (`USER_AGENTS[4]`)
matches the `"Macintosh"` branch and is sent with non-empty (Chrome-branded)
Sec-Ch-Ua headers instead of none. -/
theorem get_sec_ch_ua_identity_mismatch :
    USER_AGENTS.get ⟨2, by decide⟩ =
      "Mozilla/5.0 (Macintosh; Intel Mac OS X 10_15_7) AppleWebKit/537.36 (KHTML, like Gecko) Chrome/120.0.0.0 Safari/537.36"
    ∧ (get_sec_ch_ua (USER_AGENTS.get ⟨2, by decide⟩)).2.2 = "\"Windows\""
    ∧ (get_sec_ch_ua (USER_AGENTS.get ⟨6, by decide⟩)).1 =
        "\"Not_A Brand\";v=\"8\", \"Chromium\";v=\"120\", \"Google Chrome\";v=\"120\""
    ∧ (get_sec_ch_ua (USER_AGENTS.get ⟨4, by decide⟩)).1 ≠ "" := by
  refine ⟨rfl, ?_, ?_, ?_⟩ <;> decide
